import Mathlib

/-!
Shallow embedding of the `solar` Go package (sunrise/sunset calculation and
whitepoint computation, a port of the wlsunset color math).

Modelling conventions, used consistently below:

* Go `float64` values are modelled as real numbers (`ℝ`).  All the numeric
  claims are about exact-real behaviour of the formulas; rounding is not at
  issue in any claim.  Because real-number comparison is classical, the
  real-valued definitions are `noncomputable`; the integer/time parts stay
  executable.
* The one place the source manufactures NaN deliberately is `math.Acos`
  applied to an argument outside `[-1, 1]` (the "sun never crosses this
  angle" sentinel).  A possibly-NaN float is modelled as `Option ℝ` with
  `none` standing for NaN; the `Option.map` plumbing below mirrors exactly
  the NaN propagation of the source (`math.Abs`, unary minus and the
  arithmetic of `hourAngleToSecondsOffset` all propagate NaN).
* `math.Signbit` inspects the IEEE-754 sign bit, which exists independently
  of NaN-ness.  For the one function whose claim is about signed NaN inputs
  (`calcCondition`) we model a float as an explicit record of sign bit,
  NaN flag and magnitude (`FloatBits`); `CalculateSun` feeds it finite
  reals, for which the sign bit is `x < 0` (a real model has no minus zero).
* Go `time.Time` is modelled as total nanoseconds since the Unix epoch plus
  a fixed zone offset in seconds (`Time`).  Go's conversion `int64(f)` of a
  `float64` truncates toward zero; `goTrunc` models it (overflow, which no
  claim concerns, is ignored).  The zero `time.Time{}` is midnight January 1
  of year 1 UTC, i.e. -62135596800 s before the Unix epoch.
-/

namespace Solar

/-- Go `time.Time`, reduced to what the source uses: an absolute instant
(total nanoseconds since the Unix epoch) and the fixed zone offset in
seconds used for calendar computations. -/
structure Time where
  ns : ℤ
  offset : ℤ
  deriving DecidableEq, Repr

/-- Go `t.Add(d)` for a duration of `d` nanoseconds: shifts the instant,
keeps the location. -/
def Time.add (t : Time) (d : ℤ) : Time := ⟨t.ns + d, t.offset⟩

/-- Go `t.Sub(u)` as a duration in nanoseconds. -/
def Time.sub (t u : Time) : ℤ := t.ns - u.ns

/-- Go `t.Before(u)`: structly earlier instant. -/
def Time.Before (t u : Time) : Bool := t.ns < u.ns

/-- Instant order on `Time` (the order meant by claims such as
`Dawn ≤ Sunrise`). -/
def Time.le (t u : Time) : Prop := t.ns ≤ u.ns

/-- The zero `time.Time{}`: January 1, year 1, 00:00:00 UTC. -/
def Time.goZero : Time := ⟨-62135596800 * 1000000000, 0⟩

/-- Whole seconds of the instant (Go stores seconds and a nanosecond
remainder in `[0, 1e9)`, so the seconds are the floor). -/
def Time.sec (t : Time) : ℤ := Int.ediv t.ns 1000000000

/-- Go `t.Nanosecond()`: the sub-second remainder in `[0, 1e9)`. -/
def Time.nanosecond (t : Time) : ℤ := Int.emod t.ns 1000000000

/-- Seconds from January 1 of year 1 to the Unix epoch (Go
`unixToInternal`): 719162 days. -/
def unixToAbsoluteSeconds : ℤ := 62135596800

/-- Go `t.abs()` in seconds: local (offset-adjusted) seconds since
January 1 of year 1. -/
def Time.absSec (t : Time) : ℤ := t.sec + t.offset + unixToAbsoluteSeconds

/-- Local second-of-day, `[0, 86400)`. -/
def Time.secOfDay (t : Time) : ℤ := Int.emod t.absSec 86400

/-- Go `t.Hour()`. -/
def Time.hour (t : Time) : ℤ := Int.ediv t.secOfDay 3600

/-- Go `t.Minute()`. -/
def Time.minute (t : Time) : ℤ := Int.ediv (Int.emod t.secOfDay 3600) 60

/-- Go `t.Second()`. -/
def Time.second (t : Time) : ℤ := Int.emod t.secOfDay 60

/-- Local day number since January 1 of year 1 (used by Go `absDate`). -/
def Time.absDays (t : Time) : ℤ := Int.ediv t.absSec 86400

/-- Go `absDate` (year and zero-based day-of-year from a day count):
peel off 400-, 100-, 4- and 1-year cycles, the `n - n >>> 2` steps mapping a
cycle count of 4 back to 3 exactly as the Go source does. -/
def absYearYday (days : ℤ) : ℤ × ℤ :=
  let d0 := days
  let n400 := Int.ediv d0 146097
  let y0 := 400 * n400
  let d1 := d0 - 146097 * n400
  let m100 := Int.ediv d1 36524
  let n100 := m100 - Int.ediv m100 4
  let y1 := y0 + 100 * n100
  let d2 := d1 - 36524 * n100
  let n4 := Int.ediv d2 1461
  let y2 := y1 + 4 * n4
  let d3 := d2 - 1461 * n4
  let m1 := Int.ediv d3 365
  let n1 := m1 - Int.ediv m1 4
  let y3 := y2 + n1
  let d4 := d3 - 365 * n1
  (y3 + 1, d4)

/-- Go `t.Year()`. -/
def Time.year (t : Time) : ℤ := (absYearYday t.absDays).1

/-- Go `t.YearDay()` (one-based). -/
def Time.yearDay (t : Time) : ℤ := (absYearYday t.absDays).2 + 1

/-- Days from January 1 of year 1 to January 1 of the given year in the
proleptic Gregorian calendar (the value Go `time.Date(year, 1, 1, ...)`
computes through its cycle arithmetic). -/
def daysFromYearOne (year : ℤ) : ℤ :=
  365 * (year - 1) + Int.fdiv (year - 1) 4 - Int.fdiv (year - 1) 100 +
    Int.fdiv (year - 1) 400

/-- Go `time.Date(year, time.January, 1, 0, 0, 0, 0, loc)` for a
fixed-offset location. -/
def goDate (year : ℤ) (offset : ℤ) : Time :=
  ⟨(daysFromYearOne year * 86400 - unixToAbsoluteSeconds - offset) *
      1000000000,
    offset⟩

/-- `daysInYear` from the source: build January 1 of the next year, step
back one nanosecond, and take the year-day of the result. -/
def daysInYear (t : Time) : ℤ :=
  let jan1 := goDate (t.year + 1) t.offset
  Time.yearDay (jan1.add (-1))

noncomputable section

open Real

/-- Go float64-to-int64 conversion: truncation toward zero (overflow is
outside the scope of every claim and is not modelled). -/
def goTrunc (x : ℝ) : ℤ := if 0 ≤ x then ⌊x⌋ else ⌈x⌉

/-- Go `math.Mod(x, y)`: the IEEE remainder with the sign of `x`,
`x - trunc(x/y)*y`. -/
def goMod (x y : ℝ) : ℝ := x - (goTrunc (x / y) : ℝ) * y

/-- `degrees` from the source. -/
def degrees (rad : ℝ) : ℝ := rad * 180 / π

/-- `radians` from the source. -/
def radians (deg : ℝ) : ℝ := deg * π / 180

/-- `startTwilight` from the source: `(90.833 + 6) * math.Pi / 180`. -/
def startTwilight : ℝ := (90.833 + 6) * π / 180

/-- `endTwilight` from the source: `(90.833 - 3) * math.Pi / 180`. -/
def endTwilight : ℝ := (90.833 - 3) * π / 180

/-- `SunCondition` is a Go `uint8`; we keep the numeric carrier so that the
"unknown condition" values that drive the panic branch of
`CalculateTemperature` exist in the model. -/
abbrev SunCondition := ℕ

/-- `NormalSun`. -/
def NormalSun : SunCondition := 0

/-- `MidnightSun`. -/
def MidnightSun : SunCondition := 1

/-- `PolarNightSun`. -/
def PolarNightSun : SunCondition := 2

/-- `sunConditionMax`. -/
def sunConditionMax : SunCondition := 3

/-- The `Sun` record from the source. -/
structure Sun where
  Dawn : Time
  Sunrise : Time
  Sunset : Time
  Dusk : Time
  Condition : SunCondition

/-- A `float64` at the representation level: IEEE sign bit, NaN flag, and
magnitude.  Only `math.Signbit` looks at this level, in `calcCondition`. -/
structure FloatBits where
  signbit : Bool
  isNaN : Bool
  mag : ℝ

/-- Go `math.Signbit`: reads the sign bit, NaN or not. -/
def goSignbit (f : FloatBits) : Bool := f.signbit

/-- `calcCondition` from the source, at the representation level: compare
the sign bits of the latitude (radians) and the sun declination. -/
def calcCondition (latf declf : FloatBits) : SunCondition :=
  if goSignbit latf = goSignbit declf then MidnightSun else PolarNightSun

/-- Sign bit of a finite real (a real model has no minus zero, and the
arguments `CalculateSun` passes are finite). -/
def signbitR (x : ℝ) : Bool := decide (x < 0)

/-- `calcCondition` as invoked from `CalculateSun`, on finite reals. -/
def calcConditionR (latitudeRad declination : ℝ) : SunCondition :=
  if signbitR latitudeRad = signbitR declination then MidnightSun
  else PolarNightSun

/-- `dateOrbitAngle` from the source. -/
def dateOrbitAngle (t : Time) : ℝ :=
  2 * π / (daysInYear t : ℝ) * (t.yearDay : ℝ)

/-- `equationOfTime` from the source (NOAA truncated Fourier series). -/
def equationOfTime (orbitAngle : ℝ) : ℝ :=
  4 * (0.000075 +
    0.001868 * Real.cos orbitAngle -
    0.032077 * Real.sin orbitAngle -
    0.014615 * Real.cos (2 * orbitAngle) -
    0.040849 * Real.sin (2 * orbitAngle))

/-- `sunDeclination` from the source (NOAA truncated Fourier series). -/
def sunDeclination (orbitAngle : ℝ) : ℝ :=
  0.006918 -
    0.399912 * Real.cos orbitAngle +
    0.070257 * Real.sin orbitAngle -
    0.006758 * Real.cos (2 * orbitAngle) +
    0.000907 * Real.sin (2 * orbitAngle) -
    0.002697 * Real.cos (3 * orbitAngle) +
    0.001480 * Real.sin (3 * orbitAngle)

/-- The argument `sunHourAngle` passes to `math.Acos`; note the Go
expression parses as
`(cos(target)/cos(lat))*cos(decl) - tan(lat)*tan(decl)`. -/
def sunArg (latitude declination targetSun : ℝ) : ℝ :=
  Real.cos targetSun / Real.cos latitude * Real.cos declination -
    Real.tan latitude * Real.tan declination

/-- `sunHourAngle` from the source.  `math.Acos` yields NaN (here `none`)
exactly when its argument leaves `[-1, 1]`. -/
def sunHourAngle (latitude declination targetSun : ℝ) : Option ℝ :=
  let arg := sunArg latitude declination targetSun
  if -1 ≤ arg ∧ arg ≤ 1 then some (Real.arccos arg) else none

/-- `hourAngleToSecondsOffset` from the source; a NaN hour angle
propagates. -/
def hourAngleToSecondsOffset (hourAngle : Option ℝ) (eqtime : ℝ) :
    Option ℝ :=
  hourAngle.map fun ha => degrees ((4 * π - 4 * ha - eqtime) * 60)

/-- `longitudeTimeOffset` from the source: `long * 43200 / math.Pi`. -/
def longitudeTimeOffset (long : ℝ) : ℝ := long * 43200 / π

/-- `timeAddSeconds` from the source: a NaN seconds value returns the zero
time; otherwise `math.Modf` splits the seconds and the two `t.Add` calls
truncate the whole-second part and the fractional-nanosecond part toward
zero. -/
def timeAddSeconds (t : Time) (secs : Option ℝ) : Time :=
  match secs with
  | none => Time.goZero
  | some s =>
    let si := goTrunc s
    let frac := s - (si : ℝ)
    (t.add (si * 1000000000)).add (goTrunc (frac * 1000000000))

/-- `timeTruncateDay` from the source: subtract the local
hour/minute/second/nanosecond of the instant. -/
def timeTruncateDay (t : Time) : Time :=
  let toffset := t.hour * 3600 * 1000000000 + t.minute * 60 * 1000000000 +
    t.second * 1000000000 + t.nanosecond
  t.add (-toffset)

/-- `timeTruncateDayLongitude` from the source: truncate to the start of
day, then add the longitude offset reduced `math.Mod`-ulo one hour. -/
def timeTruncateDayLongitude (t : Time) (long : ℝ) : Time :=
  let offset := longitudeTimeOffset long
  let offset2 := goMod offset (1 * 60 * 60)
  timeAddSeconds (timeTruncateDay t) (some offset2)

/-- `CalculateSun` from the source. -/
def CalculateSun (t : Time) (lat long : ℝ) : Sun :=
  let tr := timeTruncateDayLongitude t long
  let latitudeRad := radians lat
  let orbitAngle := dateOrbitAngle tr
  let decl := sunDeclination orbitAngle
  let eqtime := equationOfTime orbitAngle
  let haTwilight := sunHourAngle latitudeRad decl startTwilight
  let haDaylight := sunHourAngle latitudeRad decl endTwilight
  { Dawn := timeAddSeconds tr
      (hourAngleToSecondsOffset (haTwilight.map fun h => |h|) eqtime)
    Dusk := timeAddSeconds tr
      (hourAngleToSecondsOffset (haTwilight.map fun h => -|h|) eqtime)
    Sunrise := timeAddSeconds tr
      (hourAngleToSecondsOffset (haDaylight.map fun h => |h|) eqtime)
    Sunset := timeAddSeconds tr
      (hourAngleToSecondsOffset (haDaylight.map fun h => -|h|) eqtime)
    Condition :=
      if haTwilight.isNone || haDaylight.isNone then
        calcConditionR latitudeRad decl
      else NormalSun }

/-- `yesterday` from the source: 24 hours earlier. -/
def yesterday (t : Time) : Time := t.add (-86400000000000)

/-- `clamp` from the source: clamp to `[0, 1]`. -/
def clamp (value : ℝ) : ℝ :=
  if value > 1 then 1 else if value < 0 then 0 else value

/-- `interpTemp` from the source. -/
def interpTemp (t start stop : Time) (Tstart Tstop : ℝ) : ℝ :=
  if Tstart = Tstop then Tstop
  else
    let timePos := clamp (((t.sub start : ℤ) : ℝ) / ((stop.sub start : ℤ) : ℝ))
    let tempPos := (Tstop - Tstart) * timePos
    Tstart + tempPos

/-- `calcTempNormal` from the source. -/
def calcTempNormal (t : Time) (sun : Sun) (lo hi : ℝ) : ℝ :=
  if t.Before sun.Dawn then lo
  else if t.Before sun.Sunrise then interpTemp t sun.Dawn sun.Sunrise lo hi
  else if t.Before sun.Sunset then hi
  else if t.Before sun.Dusk then interpTemp t sun.Sunset sun.Dusk hi lo
  else lo

/-- `CalculateTemperature` from the source.  The default branch of the
switch panics ("unreachable: unknown sun condition"); panicking is
modelled as `none`. -/
def CalculateTemperature (t : Time) (lat long lo hi : ℝ) : Option ℝ :=
  let current := CalculateSun t lat long
  if current.Condition = NormalSun then some (calcTempNormal t current lo hi)
  else if current.Condition = MidnightSun then
    let yd := CalculateSun (yesterday t) lat long
    if yd.Condition = NormalSun ∧ t.Before current.Sunrise then
      some (calcTempNormal t current lo hi)
    else some hi
  else if current.Condition = PolarNightSun then some lo
  else none

/-- `illuminantD` from the source (daylight locus).  The `throwf` panic for
a temperature outside `[2500, 25000]` is modelled as `none`.
`math.Pow(temp, n)` for the integer exponents 2 and 3 is the monomial. -/
def illuminantD (temp : ℝ) : Option (ℝ × ℝ) :=
  if 2500 ≤ temp ∧ temp ≤ 7000 then
    let x := 0.244063 + 0.09911e3 / temp + 2.9678e6 / temp ^ 2 -
      4.6070e9 / temp ^ 3
    some (x, -3 * x ^ 2 + 2.870 * x - 0.275)
  else if 7000 < temp ∧ temp ≤ 25000 then
    let x := 0.237040 + 0.24748e3 / temp + 1.9018e6 / temp ^ 2 -
      2.0064e9 / temp ^ 3
    some (x, -3 * x ^ 2 + 2.870 * x - 0.275)
  else none

/-- `planckianLocus` from the source (black-body locus); the panic for a
temperature outside `[1667, 25000]` is modelled as `none`. -/
def planckianLocus (temp : ℝ) : Option (ℝ × ℝ) :=
  if 1667 ≤ temp ∧ temp ≤ 4000 then
    let x := -0.2661239e9 / temp ^ 3 - 0.2343589e6 / temp ^ 2 +
      0.8776956e3 / temp + 0.179910
    if temp ≤ 2222 then
      some (x, -1.1064814 * x ^ 3 - 1.34811020 * x ^ 2 +
        2.18555832 * x - 0.20219683)
    else
      some (x, -0.9549476 * x ^ 3 - 1.37418593 * x ^ 2 +
        2.09137015 * x - 0.16748867)
  else if 4000 < temp ∧ temp < 25000 then
    let x := -3.0258469e9 / temp ^ 3 + 2.1070379e6 / temp ^ 2 +
      0.2226347e3 / temp + 0.240390
    some (x, 3.0817580 * x ^ 3 - 5.87338670 * x ^ 2 +
      3.75112997 * x - 0.37001483)
  else none

/-- `srgbGamma` from the source.  `math.Pow` agrees with `Real.rpow` for
the positive bases this program feeds it (the else branch has
`value > 0.0031308`). -/
def srgbGamma (value gamma : ℝ) : ℝ :=
  if value ≤ 0.0031308 then 12.92 * value
  else (1.055 * value) ^ (1 / gamma : ℝ) - 0.055

/-- `xyzToSRGB` from the source: fixed matrix, clamp each linear channel to
`[0, 1]`, then gamma-encode with exponent 2.2. -/
def xyzToSRGB (x y z : ℝ) : ℝ × ℝ × ℝ :=
  (srgbGamma (clamp (3.2404542 * x - 1.5371385 * y - 0.4985314 * z)) 2.2,
    srgbGamma (clamp (-0.9692660 * x + 1.8760108 * y + 0.0415560 * z)) 2.2,
    srgbGamma (clamp (0.0556434 * x - 0.2040259 * y + 1.0572252 * z)) 2.2)

/-- `srgbNormalize` from the source: divide each channel by the largest. -/
def srgbNormalize (r g b : ℝ) : ℝ × ℝ × ℝ :=
  let maxw := max r (max g b)
  (r / maxw, g / maxw, b / maxw)

/-- The chromaticity `switch` of `CalculateWhitepoint`, band by band, with
a `none` from a helper (that is, a panic) propagated. -/
def whitepointXY (temp : ℝ) : Option (ℝ × ℝ) :=
  if 25000 ≤ temp then illuminantD 25000
  else if 4000 ≤ temp then illuminantD temp
  else if 2500 ≤ temp then
    match illuminantD temp, planckianLocus temp with
    | some (x1, y1), some (x2, y2) =>
      let factor := (4000 - temp) / 1500
      let sinefactor := (Real.cos (π * factor) + 1.0) / 2.0
      some (x1 * sinefactor + x2 * (1.0 - sinefactor),
        y1 * sinefactor + y2 * (1.0 - sinefactor))
    | _, _ => none
  else if 1667 ≤ temp then planckianLocus temp
  else planckianLocus 1667

/-- `CalculateWhitepoint` from the source: the exact-6500 fast path, then
chromaticity, `z = 1 - x - y`, XYZ-to-sRGB, and channel normalization. -/
def CalculateWhitepoint (temp : ℝ) : Option (ℝ × ℝ × ℝ) :=
  if temp = 6500 then some (1, 1, 1)
  else
    (whitepointXY temp).map fun p =>
      let z := 1.0 - p.1 - p.2
      let rgb := xyzToSRGB p.1 p.2 z
      srgbNormalize rgb.1 rgb.2.1 rgb.2.2

/-! Abbreviations for the intermediate values of `CalculateSun`, used to
state lemmas; each is definitionally the corresponding `let` of
`CalculateSun`. -/

/-- The orbit angle `CalculateSun` computes for its day reference. -/
def sunOrbit (t : Time) (long : ℝ) : ℝ :=
  dateOrbitAngle (timeTruncateDayLongitude t long)

/-- The declination `CalculateSun` computes. -/
def sunDecl (t : Time) (long : ℝ) : ℝ := sunDeclination (sunOrbit t long)

/-- The equation-of-time value `CalculateSun` computes. -/
def sunEq (t : Time) (long : ℝ) : ℝ := equationOfTime (sunOrbit t long)

/-- The twilight hour angle of `CalculateSun` (`none` models NaN). -/
def haTw (t : Time) (lat long : ℝ) : Option ℝ :=
  sunHourAngle (radians lat) (sunDecl t long) startTwilight

/-- The daylight hour angle of `CalculateSun` (`none` models NaN). -/
def haDl (t : Time) (lat long : ℝ) : Option ℝ :=
  sunHourAngle (radians lat) (sunDecl t long) endTwilight

lemma calculateSun_eq (t : Time) (lat long : ℝ) :
    CalculateSun t lat long =
      { Dawn := timeAddSeconds (timeTruncateDayLongitude t long)
          (hourAngleToSecondsOffset ((haTw t lat long).map fun h => |h|)
            (sunEq t long))
        Dusk := timeAddSeconds (timeTruncateDayLongitude t long)
          (hourAngleToSecondsOffset ((haTw t lat long).map fun h => -|h|)
            (sunEq t long))
        Sunrise := timeAddSeconds (timeTruncateDayLongitude t long)
          (hourAngleToSecondsOffset ((haDl t lat long).map fun h => |h|)
            (sunEq t long))
        Sunset := timeAddSeconds (timeTruncateDayLongitude t long)
          (hourAngleToSecondsOffset ((haDl t lat long).map fun h => -|h|)
            (sunEq t long))
        Condition :=
          if (haTw t lat long).isNone || (haDl t lat long).isNone then
            calcConditionR (radians lat) (sunDecl t long)
          else NormalSun } := rfl

/-! Definitions written from the wording of the specification and of the
claims, to be compared with the definitions embedded from the source. -/

/-- From the spec wording of claim C3: `clamp01`. -/
def specClamp01 (v : ℝ) : ℝ := if v < 0 then 0 else if 1 < v then 1 else v

/-- From the spec wording of claim C3: linear interpolation with a clamped
position, short-circuiting a degenerate temperature window. -/
def specInterpTemp (t start stop : Time) (startTemp stopTemp : ℝ) : ℝ :=
  if startTemp = stopTemp then startTemp
  else
    let position :=
      specClamp01 (((t.sub start : ℤ) : ℝ) / ((stop.sub start : ℤ) : ℝ))
    startTemp + (stopTemp - startTemp) * position

/-- From the spec wording of claim C3: the five ordered time windows of a
normal day, first matching window applying. -/
def specNormalTemp (t : Time) (sun : Sun) (lo hi : ℝ) : ℝ :=
  if t.ns < sun.Dawn.ns then lo
  else if sun.Dawn.ns ≤ t.ns ∧ t.ns < sun.Sunrise.ns then
    specInterpTemp t sun.Dawn sun.Sunrise lo hi
  else if sun.Sunrise.ns ≤ t.ns ∧ t.ns < sun.Sunset.ns then hi
  else if sun.Sunset.ns ≤ t.ns ∧ t.ns < sun.Dusk.ns then
    specInterpTemp t sun.Sunset sun.Dusk hi lo
  else lo

/-- From the wording of claim C4: on a `MidnightSun` day, re-run the sun
calculator for `timestamp - 24h`; if that day was normal and the instant
is before the Sunrise of today, use the normal-day computation with the
Sun record of today, otherwise `hi`; a `PolarNightSun` day returns `lo`
directly. -/
def specTempDispatch (t : Time) (lat long lo hi : ℝ) : ℝ :=
  let current := CalculateSun t lat long
  if current.Condition = MidnightSun then
    if (CalculateSun (t.add (-86400000000000)) lat long).Condition =
        NormalSun ∧ t.Before current.Sunrise then
      calcTempNormal t current lo hi
    else hi
  else if current.Condition = PolarNightSun then lo
  else calcTempNormal t current lo hi

/-- From the wording of claim C8: the day reference is the input truncated
to the start of its calendar day plus `long * 43200 / pi` seconds reduced
modulo 3600 seconds. -/
def specDayRef (t : Time) (long : ℝ) : Time :=
  timeAddSeconds (timeTruncateDay t) (some (goMod (long * 43200 / π) 3600))

/-! Helper lemmas about the Go float-to-integer truncation. -/

lemma goTrunc_of_nonneg {x : ℝ} (h : 0 ≤ x) : goTrunc x = ⌊x⌋ := if_pos h

lemma goTrunc_of_nonpos {x : ℝ} (h : x ≤ 0) : goTrunc x = ⌈x⌉ := by
  unfold goTrunc
  split_ifs with h0
  · have hx : x = 0 := le_antisymm h h0
    simp [hx]
  · rfl

lemma sub_one_lt_goTrunc (x : ℝ) : x - 1 < (goTrunc x : ℝ) := by
  unfold goTrunc
  split_ifs with h0
  · exact Int.sub_one_lt_floor x
  · have := Int.le_ceil x
    linarith

lemma goTrunc_lt_add_one (x : ℝ) : (goTrunc x : ℝ) < x + 1 := by
  unfold goTrunc
  split_ifs with h0
  · have := Int.floor_le x
    linarith
  · exact Int.ceil_lt_add_one x

lemma goTrunc_mono {x y : ℝ} (h : x ≤ y) : goTrunc x ≤ goTrunc y := by
  unfold goTrunc
  split_ifs with hx hy hy
  · exact Int.floor_le_floor h
  · linarith
  · have h1 : (⌈x⌉ : ℤ) ≤ 0 := Int.ceil_le.2 (by exact_mod_cast le_of_not_le hx)
    have h2 : (0 : ℤ) ≤ ⌊y⌋ := Int.le_floor.2 (by exact_mod_cast hy)
    omega
  · exact Int.ceil_le_ceil h

lemma abs_goTrunc_le (x : ℝ) : |(goTrunc x : ℝ)| ≤ |x| := by
  unfold goTrunc
  split_ifs with h0
  · have h1 : (0 : ℤ) ≤ ⌊x⌋ := Int.le_floor.2 (by exact_mod_cast h0)
    have h2 := Int.floor_le x
    rw [abs_of_nonneg (by exact_mod_cast h1 : (0:ℝ) ≤ (⌊x⌋ : ℝ)),
      abs_of_nonneg h0]
    exact h2
  · push_neg at h0
    have h1 : (⌈x⌉ : ℤ) ≤ 0 := Int.ceil_le.2 (by exact_mod_cast h0.le)
    have h2 := Int.le_ceil x
    rw [abs_of_nonpos (by exact_mod_cast h1 : ((⌈x⌉ : ℤ) : ℝ) ≤ 0),
      abs_of_nonpos h0.le]
    linarith

/-- The two truncating `Add` calls of `timeAddSeconds` amount to one
truncation of the total nanosecond count. -/
lemma goTrunc_split (s : ℝ) :
    goTrunc s * 1000000000 +
      goTrunc ((s - (goTrunc s : ℝ)) * 1000000000) =
      goTrunc (s * 1000000000) := by
  by_cases h0 : 0 ≤ s
  · rw [goTrunc_of_nonneg h0]
    have hf : 0 ≤ (s - (⌊s⌋ : ℝ)) * 1000000000 := by
      have := Int.floor_le s
      nlinarith
    rw [goTrunc_of_nonneg hf, goTrunc_of_nonneg (by positivity)]
    have : (s - (⌊s⌋ : ℝ)) * 1000000000 =
        s * 1000000000 - ((⌊s⌋ * 1000000000 : ℤ) : ℝ) := by
      push_cast; ring
    rw [this, Int.floor_sub_int]
    ring
  · push_neg at h0
    rw [goTrunc_of_nonpos h0.le]
    have hf : (s - (⌈s⌉ : ℝ)) * 1000000000 ≤ 0 := by
      have := Int.le_ceil s
      nlinarith
    rw [goTrunc_of_nonpos hf, goTrunc_of_nonpos (by nlinarith)]
    have : (s - (⌈s⌉ : ℝ)) * 1000000000 =
        s * 1000000000 - ((⌈s⌉ * 1000000000 : ℤ) : ℝ) := by
      push_cast; ring
    rw [this, Int.ceil_sub_int]
    ring

lemma timeAddSeconds_some (t : Time) (s : ℝ) :
    timeAddSeconds t (some s) = ⟨t.ns + goTrunc (s * 1000000000), t.offset⟩ := by
  unfold timeAddSeconds Time.add
  simp only
  rw [← goTrunc_split s]
  congr 1
  ring

lemma timeAddSeconds_mono (t : Time) {s1 s2 : ℝ} (h : s1 ≤ s2) :
    (timeAddSeconds t (some s1)).ns ≤ (timeAddSeconds t (some s2)).ns := by
  rw [timeAddSeconds_some, timeAddSeconds_some]
  have := goTrunc_mono (by nlinarith : s1 * 1000000000 ≤ s2 * 1000000000)
  simp only
  omega

/-! Helper lemmas about the sun condition. -/

lemma calcConditionR_ne_normal (x y : ℝ) : calcConditionR x y ≠ NormalSun := by
  unfold calcConditionR
  split_ifs <;> simp [MidnightSun, PolarNightSun, NormalSun]

lemma calculateSun_condition_cases (t : Time) (lat long : ℝ) :
    (CalculateSun t lat long).Condition = NormalSun ∨
      (CalculateSun t lat long).Condition = MidnightSun ∨
      (CalculateSun t lat long).Condition = PolarNightSun := by
  rw [calculateSun_eq]
  simp only
  split_ifs with h
  · unfold calcConditionR
    split_ifs <;> simp
  · simp

lemma clamp_eq_specClamp01 (v : ℝ) : clamp v = specClamp01 v := by
  unfold clamp specClamp01
  split_ifs <;> linarith

lemma interpTemp_eq_spec (t start stop : Time) (Ts Tz : ℝ) :
    interpTemp t start stop Ts Tz = specInterpTemp t start stop Ts Tz := by
  unfold interpTemp specInterpTemp
  by_cases h : Ts = Tz
  · simp [h]
  · simp only [if_neg h, clamp_eq_specClamp01]

/-- Shared form of the `CalculateTemperature` dispatch: the result is
always `some` of the spec-worded case analysis. -/
lemma calculateTemperature_eq_dispatch (t : Time) (lat long lo hi : ℝ) :
    CalculateTemperature t lat long lo hi =
      some (specTempDispatch t lat long lo hi) := by
  unfold CalculateTemperature specTempDispatch yesterday
  rcases calculateSun_condition_cases t lat long with h | h | h
  · simp [h, NormalSun, MidnightSun, PolarNightSun]
  · simp only [h]
    simp only [NormalSun, MidnightSun, PolarNightSun]
    norm_num
    split_ifs <;> rfl
  · simp [h, NormalSun, MidnightSun, PolarNightSun]

/-- C3: for a Sun record with the normal condition, `calcTempNormal` is
exactly the five-window state machine of the spec, with the clamped linear
interpolation on the dawn and dusk ramps and the degenerate-window
short-circuit.  (The theorem is an equality of the embedded source
function with the function written from the spec wording.) -/
theorem calcTempNormal_matches_spec (t : Time) (sun : Sun) (lo hi : ℝ)
    (_hcond : sun.Condition = NormalSun) :
    calcTempNormal t sun lo hi = specNormalTemp t sun lo hi := by
  unfold calcTempNormal specNormalTemp
  simp only [Time.Before, decide_eq_true_eq, interpTemp_eq_spec]
  split_ifs <;> first | rfl | omega

/-- Witness for C3 at a concrete ordered Sun record. -/
theorem calcTempNormal_matches_spec_witness :
    (Sun.mk ⟨0, 0⟩ ⟨3600000000000, 0⟩ ⟨36000000000000, 0⟩
        ⟨39600000000000, 0⟩ NormalSun).Condition = NormalSun ∧
      calcTempNormal ⟨1800000000000, 0⟩
          (Sun.mk ⟨0, 0⟩ ⟨3600000000000, 0⟩ ⟨36000000000000, 0⟩
            ⟨39600000000000, 0⟩ NormalSun) 4000 6500 =
        specNormalTemp ⟨1800000000000, 0⟩
          (Sun.mk ⟨0, 0⟩ ⟨3600000000000, 0⟩ ⟨36000000000000, 0⟩
            ⟨39600000000000, 0⟩ NormalSun) 4000 6500 :=
  ⟨rfl, calcTempNormal_matches_spec _ _ 4000 6500 rfl⟩

/-- C4: `CalculateTemperature` equals the spec-worded dispatch on the sun
condition: on a `MidnightSun` day it re-runs the sun calculator for
`timestamp - 24h` and uses the normal-day computation with the Sun record
of today exactly when that previous day was normal and the instant is
before the Sunrise of today, returning `hi` otherwise; a `PolarNightSun`
day returns `lo` directly with no ramp. -/
theorem calculateTemperature_matches_dispatch (t : Time)
    (lat long lo hi : ℝ) :
    CalculateTemperature t lat long lo hi =
      some (specTempDispatch t lat long lo hi) :=
  calculateTemperature_eq_dispatch t lat long lo hi

/-- C5: at the representation level, `calcCondition` classifies as
`MidnightSun` exactly when the two IEEE-754 sign bits agree and as
`PolarNightSun` exactly when they differ, for every combination of sign
bits, NaN flags (signed NaN included) and magnitudes. -/
theorem calcCondition_signbit (a b : FloatBits) :
    (calcCondition a b = MidnightSun ↔ a.signbit = b.signbit) ∧
      (calcCondition a b = PolarNightSun ↔ ¬a.signbit = b.signbit) := by
  unfold calcCondition goSignbit MidnightSun PolarNightSun
  cases ha : a.signbit <;> cases hb : b.signbit <;> simp

/-- C7: `CalculateWhitepoint` at exactly 6500 K returns exactly
`(1, 1, 1)`. -/
theorem calculateWhitepoint_at_6500 :
    CalculateWhitepoint 6500 = some (1, 1, 1) := by
  unfold CalculateWhitepoint
  rw [if_pos rfl]

/-- C8: the day reference of `CalculateSun` (that is,
`timeTruncateDayLongitude`) equals the input truncated to the start of its
calendar day plus `long * 43200 / pi` seconds reduced modulo 3600 seconds;
that reduced offset is strictly below one hour in magnitude, and so is the
actual nanosecond shift applied to the truncated day. -/
theorem dayReference_matches_spec (t : Time) (long : ℝ) :
    timeTruncateDayLongitude t long = specDayRef t long ∧
      |goMod (long * 43200 / π) 3600| < 3600 ∧
      |(timeTruncateDayLongitude t long).ns - (timeTruncateDay t).ns| <
        3600 * 1000000000 := by
  have habs : ∀ x : ℝ, |goMod x 3600| < 3600 := by
    intro x
    unfold goMod
    have h1 := sub_one_lt_goTrunc (x / 3600)
    have h2 := goTrunc_lt_add_one (x / 3600)
    have hx : x / 3600 * 3600 = x := div_mul_cancel₀ x (by norm_num)
    rw [abs_lt]
    constructor <;> nlinarith
  have heq : timeTruncateDayLongitude t long = specDayRef t long := by
    unfold timeTruncateDayLongitude specDayRef longitudeTimeOffset
    norm_num
  refine ⟨heq, habs _, ?_⟩
  unfold timeTruncateDayLongitude longitudeTimeOffset
  rw [timeAddSeconds_some]
  simp only [add_sub_cancel_left]
  have h1 := abs_goTrunc_le (goMod (long * 43200 / π) (1 * 60 * 60) *
    1000000000)
  have h2 := habs (long * 43200 / π)
  have h3 : |goMod (long * 43200 / π) (1 * 60 * 60) * 1000000000| <
      3600 * 1000000000 := by
    rw [abs_mul]
    norm_num at h2 ⊢
    nlinarith [abs_nonneg (goMod (long * 43200 / π) 3600)]
  have h4 : |(goTrunc (goMod (long * 43200 / π) (1 * 60 * 60) *
      1000000000) : ℝ)| < 3600 * 1000000000 := lt_of_le_of_lt h1 h3
  have h5 : ((|goTrunc (goMod (long * 43200 / π) (1 * 60 * 60) *
      1000000000)| : ℤ) : ℝ) < ((3600 * 1000000000 : ℤ) : ℝ) := by
    push_cast
    exact_mod_cast h4
  exact_mod_cast h5

/-- C9: `CalculateSun` always returns one of the three named conditions,
and therefore the panic default branch of `CalculateTemperature` is never
taken: the computed temperature is always `some` value. -/
theorem noPanic_conditions (t : Time) (lat long lo hi : ℝ) :
    ((CalculateSun t lat long).Condition = NormalSun ∨
      (CalculateSun t lat long).Condition = MidnightSun ∨
      (CalculateSun t lat long).Condition = PolarNightSun) ∧
      (CalculateTemperature t lat long lo hi).isSome = true := by
  refine ⟨calculateSun_condition_cases t lat long, ?_⟩
  rw [calculateTemperature_eq_dispatch]
  rfl

/-- C10: `timeAddSeconds` maps a NaN seconds offset (modelled `none`) to
the zero time value, and consequently each field of a `CalculateSun`
result whose hour angle is NaN is exactly the zero time: NaN never
propagates into a returned timestamp. -/
theorem nan_offsets_give_zero_time (tr t : Time) (lat long : ℝ)
    (secs : Option ℝ) (h : secs = none) :
    timeAddSeconds tr secs = Time.goZero ∧
      ((haTw t lat long).isSome = true ∨
        ((CalculateSun t lat long).Dawn = Time.goZero ∧
          (CalculateSun t lat long).Dusk = Time.goZero)) ∧
      ((haDl t lat long).isSome = true ∨
        ((CalculateSun t lat long).Sunrise = Time.goZero ∧
          (CalculateSun t lat long).Sunset = Time.goZero)) := by
  subst h
  refine ⟨rfl, ?_, ?_⟩
  · cases htw : haTw t lat long with
    | none =>
      right
      rw [calculateSun_eq]
      simp [htw, hourAngleToSecondsOffset, timeAddSeconds]
    | some v => left; rfl
  · cases hdl : haDl t lat long with
    | none =>
      right
      rw [calculateSun_eq]
      simp [hdl, hourAngleToSecondsOffset, timeAddSeconds]
    | some v => left; rfl

/-- Witness for C10 at a concrete input with a `none` seconds offset. -/
theorem nan_offsets_give_zero_time_witness :
    timeAddSeconds ⟨0, 0⟩ none = Time.goZero ∧
      ((haTw ⟨0, 0⟩ 0 0).isSome = true ∨
        ((CalculateSun ⟨0, 0⟩ 0 0).Dawn = Time.goZero ∧
          (CalculateSun ⟨0, 0⟩ 0 0).Dusk = Time.goZero)) ∧
      ((haDl ⟨0, 0⟩ 0 0).isSome = true ∨
        ((CalculateSun ⟨0, 0⟩ 0 0).Sunrise = Time.goZero ∧
          (CalculateSun ⟨0, 0⟩ 0 0).Sunset = Time.goZero)) :=
  nan_offsets_give_zero_time ⟨0, 0⟩ ⟨0, 0⟩ 0 0 none rfl

/-! Helper lemmas for the interpolation monotonicity claim. -/

lemma clamp_mono {x y : ℝ} (h : x ≤ y) : clamp x ≤ clamp y := by
  unfold clamp
  split_ifs <;> linarith

lemma interpTemp_mono_window (start stop : Time) (lo hi : ℝ) (hlh : lo < hi)
    (t1 t2 : Time) (hd : start.ns ≤ t1.ns) (h12 : t1.ns ≤ t2.ns)
    (hs : t2.ns < stop.ns) :
    interpTemp t1 start stop lo hi ≤ interpTemp t2 start stop lo hi := by
  have hne : lo ≠ hi := ne_of_lt hlh
  simp only [interpTemp, Time.sub, if_neg hne]
  have hD : (0 : ℝ) < ((stop.ns - start.ns : ℤ) : ℝ) := by
    exact_mod_cast (by omega : (0 : ℤ) < stop.ns - start.ns)
  have hnum : ((t1.ns - start.ns : ℤ) : ℝ) ≤ ((t2.ns - start.ns : ℤ) : ℝ) := by
    exact_mod_cast (by omega : (t1.ns - start.ns : ℤ) ≤ t2.ns - start.ns)
  have hfrac := clamp_mono ((div_le_div_iff_of_pos_right hD).mpr hnum)
  nlinarith [hfrac]

lemma interpTemp_anti_window (start stop : Time) (lo hi : ℝ) (hlh : lo < hi)
    (t1 t2 : Time) (hd : start.ns ≤ t1.ns) (h12 : t1.ns ≤ t2.ns)
    (hs : t2.ns < stop.ns) :
    interpTemp t2 start stop hi lo ≤ interpTemp t1 start stop hi lo := by
  have hne : hi ≠ lo := ne_of_gt hlh
  simp only [interpTemp, Time.sub, if_neg hne]
  have hD : (0 : ℝ) < ((stop.ns - start.ns : ℤ) : ℝ) := by
    exact_mod_cast (by omega : (0 : ℤ) < stop.ns - start.ns)
  have hnum : ((t1.ns - start.ns : ℤ) : ℝ) ≤ ((t2.ns - start.ns : ℤ) : ℝ) := by
    exact_mod_cast (by omega : (t1.ns - start.ns : ℤ) ≤ t2.ns - start.ns)
  have hfrac := clamp_mono ((div_le_div_iff_of_pos_right hD).mpr hnum)
  nlinarith [hfrac]

/-- C6: for a Sun record with the normal condition and `lo < hi`, the
interpolated temperature the normal-day computation applies on the
dawn-to-sunrise window (`interpTemp` between `Dawn` and `Sunrise`, from
`lo` to `hi`) is monotone non-decreasing in the instant across that
window, and the one it applies on the sunset-to-dusk window (between
`Sunset` and `Dusk`, from `hi` back to `lo`) is monotone non-increasing
across that window. -/
theorem interp_monotone_on_windows (sun : Sun) (lo hi : ℝ)
    (_hcond : sun.Condition = NormalSun) (hlh : lo < hi) :
    (∀ t1 t2 : Time, Time.le sun.Dawn t1 → Time.le t1 t2 →
      t2.Before sun.Sunrise = true →
      interpTemp t1 sun.Dawn sun.Sunrise lo hi ≤
        interpTemp t2 sun.Dawn sun.Sunrise lo hi) ∧
    (∀ t1 t2 : Time, Time.le sun.Sunset t1 → Time.le t1 t2 →
      t2.Before sun.Dusk = true →
      interpTemp t2 sun.Sunset sun.Dusk hi lo ≤
        interpTemp t1 sun.Sunset sun.Dusk hi lo) := by
  constructor
  · intro t1 t2 h1 h2 h3
    simp only [Time.le] at h1 h2
    simp only [Time.Before, decide_eq_true_eq] at h3
    exact interpTemp_mono_window _ _ lo hi hlh t1 t2 h1 h2 h3
  · intro t1 t2 h1 h2 h3
    simp only [Time.le] at h1 h2
    simp only [Time.Before, decide_eq_true_eq] at h3
    exact interpTemp_anti_window _ _ lo hi hlh t1 t2 h1 h2 h3

/-- Witness for C6 at a concrete ordered Sun record and the default
temperature bounds. -/
theorem interp_monotone_on_windows_witness :
    (Sun.mk ⟨0, 0⟩ ⟨3600000000000, 0⟩ ⟨36000000000000, 0⟩
        ⟨39600000000000, 0⟩ NormalSun).Condition = NormalSun ∧
      (4000 : ℝ) < 6500 ∧
      ((∀ t1 t2 : Time,
        Time.le (Sun.mk ⟨0, 0⟩ ⟨3600000000000, 0⟩ ⟨36000000000000, 0⟩
          ⟨39600000000000, 0⟩ NormalSun).Dawn t1 → Time.le t1 t2 →
        t2.Before (Sun.mk ⟨0, 0⟩ ⟨3600000000000, 0⟩ ⟨36000000000000, 0⟩
          ⟨39600000000000, 0⟩ NormalSun).Sunrise = true →
        interpTemp t1 ⟨0, 0⟩ ⟨3600000000000, 0⟩ 4000 6500 ≤
          interpTemp t2 ⟨0, 0⟩ ⟨3600000000000, 0⟩ 4000 6500) ∧
      (∀ t1 t2 : Time,
        Time.le (Sun.mk ⟨0, 0⟩ ⟨3600000000000, 0⟩ ⟨36000000000000, 0⟩
          ⟨39600000000000, 0⟩ NormalSun).Sunset t1 → Time.le t1 t2 →
        t2.Before (Sun.mk ⟨0, 0⟩ ⟨3600000000000, 0⟩ ⟨36000000000000, 0⟩
          ⟨39600000000000, 0⟩ NormalSun).Dusk = true →
        interpTemp t2 ⟨36000000000000, 0⟩ ⟨39600000000000, 0⟩ 6500 4000 ≤
          interpTemp t1 ⟨36000000000000, 0⟩ ⟨39600000000000, 0⟩ 6500 4000)) :=
  ⟨rfl, by norm_num,
    interp_monotone_on_windows _ 4000 6500 rfl (by norm_num)⟩

/-! Helper lemmas for the whitepoint totality claim. -/

lemma illuminantD_isSome {temp : ℝ} (h1 : 2500 ≤ temp) (h2 : temp ≤ 25000) :
    (illuminantD temp).isSome = true := by
  unfold illuminantD
  split_ifs with ha hb
  · rfl
  · rfl
  · exfalso
    rcases not_and_or.mp ha with h | h <;>
      rcases not_and_or.mp hb with h' | h' <;> push_neg at h h' <;> linarith

lemma planckianLocus_isSome {temp : ℝ} (h1 : 1667 ≤ temp)
    (h2 : temp ≤ 4000) : (planckianLocus temp).isSome = true := by
  unfold planckianLocus
  rw [if_pos ⟨h1, h2⟩]
  split_ifs <;> rfl

lemma whitepointXY_isSome (temp : ℝ) : (whitepointXY temp).isSome = true := by
  unfold whitepointXY
  split_ifs with h1 h2 h3 h4
  · exact illuminantD_isSome (by norm_num) (by norm_num)
  · exact illuminantD_isSome (by linarith) (by linarith)
  · obtain ⟨p, hp⟩ := Option.isSome_iff_exists.mp
      (illuminantD_isSome h3 (by linarith))
    obtain ⟨q, hq⟩ := Option.isSome_iff_exists.mp
      (planckianLocus_isSome (by linarith) (by linarith))
    rcases p with ⟨x1, y1⟩
    rcases q with ⟨x2, y2⟩
    rw [hp, hq]
    rfl
  · exact planckianLocus_isSome h4 (by linarith)
  · exact planckianLocus_isSome (by norm_num) (by norm_num)

lemma clamp_mem (v : ℝ) : 0 ≤ clamp v ∧ clamp v ≤ 1 := by
  unfold clamp
  split_ifs <;> constructor <;> linarith

/-- On the clamped inputs the program feeds it, the gamma encoding is
nonnegative: the else branch needs
`(1.055 * v) ^ (1/2.2) ≥ 0.055`, which follows from
`0.055 ^ 2.2 ≤ 0.055 ^ 2 ≤ 1.055 * 0.0031308`. -/
lemma srgbGamma_nonneg {v : ℝ} (h0 : 0 ≤ v) : 0 ≤ srgbGamma v 2.2 := by
  unfold srgbGamma
  split_ifs with h
  · nlinarith
  · push_neg at h
    have key : (0.055 : ℝ) = ((0.055 : ℝ) ^ (2.2 : ℝ)) ^ ((2.2 : ℝ))⁻¹ := by
      rw [← Real.rpow_mul (by norm_num : (0:ℝ) ≤ 0.055),
        show (2.2 : ℝ) * (2.2 : ℝ)⁻¹ = 1 by norm_num, Real.rpow_one]
    have ha : (0.055 : ℝ) ^ (2.2 : ℝ) =
        (0.055 : ℝ) ^ (2 : ℝ) * (0.055 : ℝ) ^ (0.2 : ℝ) := by
      rw [← Real.rpow_add (by norm_num : (0:ℝ) < 0.055)]
      norm_num
    have hb : (0.055 : ℝ) ^ (2 : ℝ) = 0.003025 := by
      rw [show (2 : ℝ) = ((2 : ℕ) : ℝ) by norm_num, Real.rpow_natCast]
      norm_num
    have hc : (0.055 : ℝ) ^ (0.2 : ℝ) ≤ 1 :=
      Real.rpow_le_one (by norm_num) (by norm_num) (by norm_num)
    have hc0 : (0 : ℝ) ≤ (0.055 : ℝ) ^ (0.2 : ℝ) :=
      Real.rpow_nonneg (by norm_num) _
    have hle : (0.055 : ℝ) ^ (2.2 : ℝ) ≤ 1.055 * v := by
      rw [ha, hb]
      nlinarith
    have hmono : ((0.055 : ℝ) ^ (2.2 : ℝ)) ^ ((2.2 : ℝ))⁻¹ ≤
        (1.055 * v) ^ ((2.2 : ℝ))⁻¹ :=
      Real.rpow_le_rpow (Real.rpow_nonneg (by norm_num) _) hle (by norm_num)
    have : (0.055 : ℝ) ≤ (1.055 * v) ^ ((1 : ℝ) / 2.2) := by
      rw [one_div]
      calc (0.055 : ℝ) = ((0.055 : ℝ) ^ (2.2 : ℝ)) ^ ((2.2 : ℝ))⁻¹ := key
        _ ≤ (1.055 * v) ^ ((2.2 : ℝ))⁻¹ := hmono
    linarith

lemma srgbNormalize_bounds (r g b : ℝ) (hr : 0 ≤ r) (hg : 0 ≤ g)
    (hb : 0 ≤ b) :
    0 ≤ (srgbNormalize r g b).1 ∧ (srgbNormalize r g b).1 ≤ 1 ∧
      0 ≤ (srgbNormalize r g b).2.1 ∧ (srgbNormalize r g b).2.1 ≤ 1 ∧
      0 ≤ (srgbNormalize r g b).2.2 ∧ (srgbNormalize r g b).2.2 ≤ 1 := by
  unfold srgbNormalize
  simp only
  have hrm : r ≤ max r (max g b) := le_max_left _ _
  have hgm : g ≤ max r (max g b) :=
    le_trans (le_max_left g b) (le_max_right r _)
  have hbm : b ≤ max r (max g b) :=
    le_trans (le_max_right g b) (le_max_right r _)
  have hm0 : 0 ≤ max r (max g b) := le_trans hr hrm
  rcases eq_or_lt_of_le hm0 with hm | hm
  · have hr0 : r = 0 := le_antisymm (hm ▸ hrm) hr
    have hg0 : g = 0 := le_antisymm (hm ▸ hgm) hg
    have hb0 : b = 0 := le_antisymm (hm ▸ hbm) hb
    rw [hr0, hg0, hb0]
    norm_num
  · refine ⟨div_nonneg hr hm0, (div_le_one hm).mpr hrm,
      div_nonneg hg hm0, (div_le_one hm).mpr hgm,
      div_nonneg hb hm0, (div_le_one hm).mpr hbm⟩

/-- C2: `CalculateWhitepoint` is total on the claimed Kelvin range (in
fact on all of it): it returns `some` triple — that is, the temperature
clamping keeps both chromaticity helpers inside their panic-free bands —
and each returned channel lies in `[0, 1]`.  In the exact-real model the
values are finite by construction. -/
theorem whitepoint_total_in_range (temp : ℝ) (h0 : 0 ≤ temp)
    (h5 : temp < 50000) :
    ∃ r g b, CalculateWhitepoint temp = some (r, g, b) ∧
      0 ≤ r ∧ r ≤ 1 ∧ 0 ≤ g ∧ g ≤ 1 ∧ 0 ≤ b ∧ b ≤ 1 := by
  by_cases h65 : temp = 6500
  · refine ⟨1, 1, 1, ?_, by norm_num, by norm_num, by norm_num, by norm_num,
      by norm_num, by norm_num⟩
    subst h65
    unfold CalculateWhitepoint
    rw [if_pos rfl]
  · obtain ⟨⟨x, y⟩, hxy⟩ :=
      Option.isSome_iff_exists.mp (whitepointXY_isSome temp)
    have heval : CalculateWhitepoint temp =
        some (srgbNormalize (xyzToSRGB x y (1.0 - x - y)).1
          (xyzToSRGB x y (1.0 - x - y)).2.1
          (xyzToSRGB x y (1.0 - x - y)).2.2) := by
      unfold CalculateWhitepoint
      rw [if_neg h65, hxy]
      rfl
    have hr0 : 0 ≤ (xyzToSRGB x y (1.0 - x - y)).1 :=
      srgbGamma_nonneg (clamp_mem _).1
    have hg0 : 0 ≤ (xyzToSRGB x y (1.0 - x - y)).2.1 :=
      srgbGamma_nonneg (clamp_mem _).1
    have hb0 : 0 ≤ (xyzToSRGB x y (1.0 - x - y)).2.2 :=
      srgbGamma_nonneg (clamp_mem _).1
    obtain ⟨p1, p2, p3, p4, p5, p6⟩ :=
      srgbNormalize_bounds _ _ _ hr0 hg0 hb0
    exact ⟨_, _, _, heval, p1, p2, p3, p4, p5, p6⟩

/-- Witness for C2 at 3000 K. -/
theorem whitepoint_total_in_range_witness :
    (0 : ℝ) ≤ 3000 ∧ (3000 : ℝ) < 50000 ∧
      ∃ r g b, CalculateWhitepoint 3000 = some (r, g, b) ∧
        0 ≤ r ∧ r ≤ 1 ∧ 0 ≤ g ∧ g ≤ 1 ∧ 0 ≤ b ∧ b ≤ 1 :=
  ⟨by norm_num, by norm_num,
    whitepoint_total_in_range 3000 (by norm_num) (by norm_num)⟩

/-! Trigonometric groundwork for the sun-times ordering claim. -/

/-- The NOAA declination series is bounded by the sum of the absolute
values of its coefficients, for every orbit angle. -/
lemma abs_sunDeclination_le (A : ℝ) : |sunDeclination A| ≤ 0.488929 := by
  unfold sunDeclination
  have h1 := Real.neg_one_le_cos A
  have h2 := Real.cos_le_one A
  have h3 := Real.neg_one_le_sin A
  have h4 := Real.sin_le_one A
  have h5 := Real.neg_one_le_cos (2 * A)
  have h6 := Real.cos_le_one (2 * A)
  have h7 := Real.neg_one_le_sin (2 * A)
  have h8 := Real.sin_le_one (2 * A)
  have h9 := Real.neg_one_le_cos (3 * A)
  have h10 := Real.cos_le_one (3 * A)
  have h11 := Real.neg_one_le_sin (3 * A)
  have h12 := Real.sin_le_one (3 * A)
  rw [abs_le]
  constructor <;> nlinarith

lemma cos_sunDeclination_pos (A : ℝ) : 0 < Real.cos (sunDeclination A) := by
  have h := abs_sunDeclination_le A
  rw [abs_le] at h
  have hpi := Real.pi_gt_d6
  exact Real.cos_pos_of_mem_Ioo ⟨by linarith [h.1], by linarith [h.2]⟩

lemma cos_sunDeclination_ge (A : ℝ) :
    (0.88 : ℝ) ≤ Real.cos (sunDeclination A) := by
  have h := abs_sunDeclination_le A
  rw [abs_le] at h
  have hq := Real.one_sub_sq_div_two_le_cos (x := sunDeclination A)
  nlinarith [h.1, h.2]

lemma cos_startTwilight_neg : Real.cos startTwilight < 0 := by
  unfold startTwilight
  have hpi := Real.pi_pos
  exact Real.cos_neg_of_pi_div_two_lt_of_lt (by nlinarith) (by nlinarith)

lemma cos_endTwilight_pos : 0 < Real.cos endTwilight := by
  unfold endTwilight
  have hpi := Real.pi_pos
  exact Real.cos_pos_of_mem_Ioo ⟨by nlinarith, by nlinarith⟩

/-- A concrete positive lower bound on the cosine at the daylight zenith
angle, by Jordan's inequality applied to its complement. -/
lemma cos_endTwilight_ge : (0.024 : ℝ) ≤ Real.cos endTwilight := by
  have hpi := Real.pi_pos
  have hz : Real.cos endTwilight = Real.sin (π * (2.167 / 180)) := by
    rw [← Real.sin_pi_div_two_sub]
    unfold endTwilight
    ring_nf
  rw [hz]
  have h0 : (0 : ℝ) ≤ π * (2.167 / 180) := by positivity
  have h1 : π * (2.167 / 180) ≤ π / 2 := by nlinarith
  have hj := Real.mul_le_sin h0 h1
  have hv : 2 / π * (π * (2.167 / 180)) = 2.167 / 90 := by
    field_simp
    ring
  rw [hv] at hj
  linarith

/-- `arccos` is antitone on all of `ℝ`. -/
lemma arccos_antitone {a b : ℝ} (h : a ≤ b) :
    Real.arccos b ≤ Real.arccos a := by
  rw [Real.arccos_eq_pi_div_two_sub_arcsin, Real.arccos_eq_pi_div_two_sub_arcsin]
  have := Real.monotone_arcsin h
  linarith

/-- The inverse-Lipschitz bound for `arccos`: the arc is at least as long
as the chord, on `[-1, 1]`. -/
lemma arccos_diff_ge {a b : ℝ} (ha : -1 ≤ a) (hab : a ≤ b) (hb : b ≤ 1) :
    b - a ≤ Real.arccos a - Real.arccos b := by
  have hca : Real.cos (Real.arccos a) = a :=
    Real.cos_arccos ha (le_trans hab hb)
  have hcb : Real.cos (Real.arccos b) = b :=
    Real.cos_arccos (le_trans ha hab) hb
  set u := Real.arccos b
  set v := Real.arccos a
  have huv : u ≤ v := arccos_antitone hab
  have hu0 : 0 ≤ u := Real.arccos_nonneg b
  have hvpi : v ≤ π := Real.arccos_le_pi a
  have hdiff : Real.cos u - Real.cos v =
      -2 * Real.sin ((u + v) / 2) * Real.sin ((u - v) / 2) :=
    Real.cos_sub_cos u v
  have hs1 : Real.sin ((u + v) / 2) ≤ 1 := Real.sin_le_one _
  have hs2 : Real.sin ((v - u) / 2) ≤ (v - u) / 2 :=
    Real.sin_le (by linarith)
  have hs2' : 0 ≤ Real.sin ((v - u) / 2) :=
    Real.sin_nonneg_of_nonneg_of_le_pi (by linarith) (by linarith)
  have hodd : Real.sin ((u - v) / 2) = -Real.sin ((v - u) / 2) := by
    rw [show (u - v) / 2 = -((v - u) / 2) by ring, Real.sin_neg]
  rw [hodd] at hdiff
  have hrw : Real.cos u - Real.cos v =
      2 * Real.sin ((u + v) / 2) * Real.sin ((v - u) / 2) := by
    rw [hdiff]; ring
  have hstep : Real.cos u - Real.cos v ≤ v - u := by
    have twice : 2 * Real.sin ((u + v) / 2) * Real.sin ((v - u) / 2) ≤
        2 * Real.sin ((v - u) / 2) := by nlinarith
    calc Real.cos u - Real.cos v
        = 2 * Real.sin ((u + v) / 2) * Real.sin ((v - u) / 2) := hrw
      _ ≤ 2 * Real.sin ((v - u) / 2) := twice
      _ ≤ 2 * ((v - u) / 2) := by linarith
      _ = v - u := by ring
  rw [hcb, hca] at hstep
  linarith

/-! Extraction lemmas for the sun condition. -/

lemma sunHourAngle_isSome_elim (l d s : ℝ)
    (h : (sunHourAngle l d s).isSome = true) :
    (-1 ≤ sunArg l d s ∧ sunArg l d s ≤ 1) ∧
      sunHourAngle l d s = some (Real.arccos (sunArg l d s)) := by
  unfold sunHourAngle at h ⊢
  simp only at h ⊢
  split_ifs at h ⊢ with hc
  · exact ⟨hc, rfl⟩
  · simp at h

lemma normal_both_some (t : Time) (lat long : ℝ)
    (h : (CalculateSun t lat long).Condition = NormalSun) :
    (haTw t lat long).isSome = true ∧ (haDl t lat long).isSome = true := by
  rw [calculateSun_eq] at h
  simp only at h
  by_cases hb : ((haTw t lat long).isNone || (haDl t lat long).isNone) = true
  · rw [if_pos hb] at h
    exact absurd h (calcConditionR_ne_normal _ _)
  · constructor
    · cases htw : haTw t lat long with
      | none => exact absurd (by rw [htw]; rfl) hb
      | some v => rfl
    · cases hdl : haDl t lat long with
      | none => exact absurd (by rw [hdl]; simp) hb
      | some v => rfl

lemma condition_normal_of_some (t : Time) (lat long : ℝ)
    (h1 : (haTw t lat long).isSome = true)
    (h2 : (haDl t lat long).isSome = true) :
    (CalculateSun t lat long).Condition = NormalSun := by
  cases ho1 : haTw t lat long with
  | none => rw [ho1] at h1; exact absurd h1 (by simp)
  | some v1 =>
    cases ho2 : haDl t lat long with
    | none => rw [ho2] at h2; exact absurd h2 (by simp)
    | some v2 =>
      rw [calculateSun_eq]
      simp [ho1, ho2]

lemma degrees_mono {a b : ℝ} (h : a ≤ b) : degrees a ≤ degrees b := by
  unfold degrees
  exact (div_le_div_iff_of_pos_right Real.pi_pos).mpr (by nlinarith)

/-- C1 (amended): for latitudes strictly between -90 and 90 degrees,
whenever `CalculateSun` reports the normal condition the four returned
timestamps are ordered `Dawn ≤ Sunrise ≤ Sunset ≤ Dusk`.  (The ordering
can fail for out-of-range latitudes with a negative latitude cosine; see
the counterexample at latitude 180.) -/
theorem calculateSun_times_ordered (t : Time) (lat long : ℝ)
    (hlat1 : -90 < lat) (hlat2 : lat < 90)
    (hcond : (CalculateSun t lat long).Condition = NormalSun) :
    Time.le (CalculateSun t lat long).Dawn
        (CalculateSun t lat long).Sunrise ∧
      Time.le (CalculateSun t lat long).Sunrise
        (CalculateSun t lat long).Sunset ∧
      Time.le (CalculateSun t lat long).Sunset
        (CalculateSun t lat long).Dusk := by
  obtain ⟨hTw, hDl⟩ := normal_both_some t lat long hcond
  have hTw' : (sunHourAngle (radians lat) (sunDecl t long)
      startTwilight).isSome = true := hTw
  have hDl' : (sunHourAngle (radians lat) (sunDecl t long)
      endTwilight).isSome = true := hDl
  obtain ⟨⟨hT1, hT2⟩, hTeq⟩ := sunHourAngle_isSome_elim _ _ _ hTw'
  obtain ⟨⟨hD1, hD2⟩, hDeq⟩ := sunHourAngle_isSome_elim _ _ _ hDl'
  have hpi := Real.pi_pos
  have hcoslat : 0 < Real.cos (radians lat) := by
    refine Real.cos_pos_of_mem_Ioo ⟨?_, ?_⟩ <;> unfold radians <;> nlinarith
  have hcosd : 0 < Real.cos (sunDecl t long) := cos_sunDeclination_pos _
  have hstw := cos_startTwilight_neg
  have hetw := cos_endTwilight_pos
  have hargle : sunArg (radians lat) (sunDecl t long) startTwilight ≤
      sunArg (radians lat) (sunDecl t long) endTwilight := by
    unfold sunArg
    have e1 : ∀ s : ℝ, Real.cos s / Real.cos (radians lat) *
        Real.cos (sunDecl t long) =
        Real.cos s * (Real.cos (sunDecl t long) / Real.cos (radians lat)) :=
      fun s => by ring
    rw [e1, e1]
    have hq : 0 < Real.cos (sunDecl t long) / Real.cos (radians lat) :=
      div_pos hcosd hcoslat
    nlinarith
  set aT := sunArg (radians lat) (sunDecl t long) startTwilight with haTdef
  set aD := sunArg (radians lat) (sunDecl t long) endTwilight with haDdef
  have hDle : Real.arccos aD ≤ Real.arccos aT := arccos_antitone hargle
  have hT0 : 0 ≤ Real.arccos aT := Real.arccos_nonneg _
  have hD0 : 0 ≤ Real.arccos aD := Real.arccos_nonneg _
  have hTeq' : haTw t lat long = some (Real.arccos aT) := hTeq
  have hDeq' : haDl t lat long = some (Real.arccos aD) := hDeq
  have hDawn : (CalculateSun t lat long).Dawn =
      timeAddSeconds (timeTruncateDayLongitude t long)
        (some (degrees ((4 * π - 4 * Real.arccos aT - sunEq t long) * 60))) := by
    rw [calculateSun_eq]
    simp only [hTeq', Option.map_some']
    rw [abs_of_nonneg hT0]
    rfl
  have hDusk : (CalculateSun t lat long).Dusk =
      timeAddSeconds (timeTruncateDayLongitude t long)
        (some (degrees ((4 * π - 4 * -Real.arccos aT - sunEq t long) * 60))) := by
    rw [calculateSun_eq]
    simp only [hTeq', Option.map_some']
    rw [abs_of_nonneg hT0]
    rfl
  have hSunrise : (CalculateSun t lat long).Sunrise =
      timeAddSeconds (timeTruncateDayLongitude t long)
        (some (degrees ((4 * π - 4 * Real.arccos aD - sunEq t long) * 60))) := by
    rw [calculateSun_eq]
    simp only [hDeq', Option.map_some']
    rw [abs_of_nonneg hD0]
    rfl
  have hSunset : (CalculateSun t lat long).Sunset =
      timeAddSeconds (timeTruncateDayLongitude t long)
        (some (degrees ((4 * π - 4 * -Real.arccos aD - sunEq t long) * 60))) := by
    rw [calculateSun_eq]
    simp only [hDeq', Option.map_some']
    rw [abs_of_nonneg hD0]
    rfl
  refine ⟨?_, ?_, ?_⟩
  · rw [Time.le, hDawn, hSunrise]
    exact timeAddSeconds_mono _ (degrees_mono (by nlinarith))
  · rw [Time.le, hSunrise, hSunset]
    exact timeAddSeconds_mono _ (degrees_mono (by nlinarith))
  · rw [Time.le, hSunset, hDusk]
    exact timeAddSeconds_mono _ (degrees_mono (by nlinarith))

lemma sunArg_zero_lat (d s : ℝ) : -1 ≤ sunArg 0 d s ∧ sunArg 0 d s ≤ 1 := by
  unfold sunArg
  rw [Real.cos_zero, Real.tan_zero]
  have h1 := Real.neg_one_le_cos s
  have h2 := Real.cos_le_one s
  have h3 := Real.neg_one_le_cos d
  have h4 := Real.cos_le_one d
  constructor <;> nlinarith

lemma sunHourAngle_zero_isSome (d s : ℝ) :
    (sunHourAngle 0 d s).isSome = true := by
  unfold sunHourAngle
  simp only
  rw [if_pos (sunArg_zero_lat d s)]
  rfl

lemma radians_zero : radians 0 = 0 := by unfold radians; ring

/-- Witness for the amended C1 at the equator: the condition there is
always normal, and the ordering holds. -/
theorem calculateSun_times_ordered_witness :
    (-90 : ℝ) < 0 ∧ (0 : ℝ) < 90 ∧
      (CalculateSun ⟨0, 0⟩ 0 0).Condition = NormalSun ∧
      (Time.le (CalculateSun ⟨0, 0⟩ 0 0).Dawn
          (CalculateSun ⟨0, 0⟩ 0 0).Sunrise ∧
        Time.le (CalculateSun ⟨0, 0⟩ 0 0).Sunrise
          (CalculateSun ⟨0, 0⟩ 0 0).Sunset ∧
        Time.le (CalculateSun ⟨0, 0⟩ 0 0).Sunset
          (CalculateSun ⟨0, 0⟩ 0 0).Dusk) := by
  have hTw : (haTw ⟨0, 0⟩ 0 0).isSome = true := by
    show (sunHourAngle (radians 0) (sunDecl ⟨0, 0⟩ 0)
      startTwilight).isSome = true
    rw [radians_zero]
    exact sunHourAngle_zero_isSome _ _
  have hDl : (haDl ⟨0, 0⟩ 0 0).isSome = true := by
    show (sunHourAngle (radians 0) (sunDecl ⟨0, 0⟩ 0)
      endTwilight).isSome = true
    rw [radians_zero]
    exact sunHourAngle_zero_isSome _ _
  have hcond := condition_normal_of_some ⟨0, 0⟩ 0 0 hTw hDl
  exact ⟨by norm_num, by norm_num, hcond,
    calculateSun_times_ordered ⟨0, 0⟩ 0 0 (by norm_num) (by norm_num) hcond⟩

lemma radians_180 : radians 180 = π := by unfold radians; ring

lemma sunArg_at_pi (d s : ℝ) :
    sunArg π d s = -(Real.cos s * Real.cos d) := by
  unfold sunArg
  rw [Real.cos_pi, Real.tan_pi]
  ring

/-- Counterexample to C1 as stated: at latitude 180 degrees the latitude
cosine is negative, the twilight and daylight hour angles come out in
reversed order while the condition is still `NormalSun`, and the computed
Dawn lands strictly after the computed Sunrise. -/
theorem calculateSun_order_counterexample :
    (CalculateSun ⟨0, 0⟩ 180 0).Condition = NormalSun ∧
      ¬ Time.le (CalculateSun ⟨0, 0⟩ 180 0).Dawn
        (CalculateSun ⟨0, 0⟩ 180 0).Sunrise := by
  have hpi := Real.pi_pos
  set d := sunDecl (⟨0, 0⟩ : Time) 0 with hd
  have hcosd : 0 < Real.cos d := cos_sunDeclination_pos _
  have hcosd1 : Real.cos d ≤ 1 := Real.cos_le_one _
  have hcosd88 : (0.88 : ℝ) ≤ Real.cos d := cos_sunDeclination_ge _
  have hstw := cos_startTwilight_neg
  have hstw1 := Real.neg_one_le_cos startTwilight
  have hetw := cos_endTwilight_pos
  have hetw1 := Real.cos_le_one endTwilight
  have hetw24 := cos_endTwilight_ge
  have hTbounds : -1 ≤ sunArg π d startTwilight ∧
      sunArg π d startTwilight ≤ 1 := by
    rw [sunArg_at_pi]
    constructor <;> nlinarith
  have hDbounds : -1 ≤ sunArg π d endTwilight ∧
      sunArg π d endTwilight ≤ 1 := by
    rw [sunArg_at_pi]
    constructor <;> nlinarith
  have hTweq : haTw ⟨0, 0⟩ 180 0 =
      some (Real.arccos (sunArg π d startTwilight)) := by
    show sunHourAngle (radians 180) d startTwilight = _
    rw [radians_180]
    unfold sunHourAngle
    simp only
    rw [if_pos hTbounds]
  have hDleq : haDl ⟨0, 0⟩ 180 0 =
      some (Real.arccos (sunArg π d endTwilight)) := by
    show sunHourAngle (radians 180) d endTwilight = _
    rw [radians_180]
    unfold sunHourAngle
    simp only
    rw [if_pos hDbounds]
  set aT := sunArg π d startTwilight with haT
  set aD := sunArg π d endTwilight with haD
  have hT0 : 0 ≤ Real.arccos aT := Real.arccos_nonneg _
  have hD0 : 0 ≤ Real.arccos aD := Real.arccos_nonneg _
  constructor
  · exact condition_normal_of_some _ _ _ (by rw [hTweq]; rfl)
      (by rw [hDleq]; rfl)
  · have hDawn : (CalculateSun ⟨0, 0⟩ 180 0).Dawn =
        timeAddSeconds (timeTruncateDayLongitude ⟨0, 0⟩ 0)
          (some (degrees ((4 * π - 4 * Real.arccos aT -
            sunEq ⟨0, 0⟩ 0) * 60))) := by
      rw [calculateSun_eq]
      simp only [hTweq, Option.map_some']
      rw [abs_of_nonneg hT0]
      rfl
    have hSunrise : (CalculateSun ⟨0, 0⟩ 180 0).Sunrise =
        timeAddSeconds (timeTruncateDayLongitude ⟨0, 0⟩ 0)
          (some (degrees ((4 * π - 4 * Real.arccos aD -
            sunEq ⟨0, 0⟩ 0) * 60))) := by
      rw [calculateSun_eq]
      simp only [hDleq, Option.map_some']
      rw [abs_of_nonneg hD0]
      rfl
    have hADle : aD ≤ aT := by
      rw [haT, haD, sunArg_at_pi, sunArg_at_pi]
      nlinarith
    have hchord : aT - aD ≤ Real.arccos aD - Real.arccos aT :=
      arccos_diff_ge hDbounds.1 hADle hTbounds.2
    have harggap : (0.0211 : ℝ) ≤ aT - aD := by
      rw [haT, haD, sunArg_at_pi, sunArg_at_pi]
      nlinarith
    have harcgap : (0.0211 : ℝ) ≤ Real.arccos aD - Real.arccos aT := by
      linarith
    set eqv := sunEq (⟨0, 0⟩ : Time) 0 with heqv
    set oT := degrees ((4 * π - 4 * Real.arccos aT - eqv) * 60) with hoT
    set oR := degrees ((4 * π - 4 * Real.arccos aD - eqv) * 60) with hoR
    have hodiff : oT - oR = (Real.arccos aD - Real.arccos aT) * 43200 / π := by
      rw [hoT, hoR]
      unfold degrees
      ring
    have hgap290 : (290 : ℝ) ≤ oT - oR := by
      rw [hodiff, le_div_iff₀ hpi]
      nlinarith [Real.pi_lt_d6]
    have b1 := goTrunc_lt_add_one (oR * 1000000000)
    have b2 := sub_one_lt_goTrunc (oT * 1000000000)
    have htr : (goTrunc (oR * 1000000000) : ℝ) <
        (goTrunc (oT * 1000000000) : ℝ) := by nlinarith
    have htrZ : goTrunc (oR * 1000000000) < goTrunc (oT * 1000000000) := by
      exact_mod_cast htr
    rw [Time.le, hDawn, hSunrise, timeAddSeconds_some, timeAddSeconds_some]
    simp only
    omega

end

end Solar
